import Mathlib

/-!
Verification of the platform messaging runtime core against its design
specification: the AMQP subscription multiplexer (src/amqp/subscriber.go),
the request/response correlation router (src/router.go), and the handler
execution wrapper — courier, heartbeat courier and service (platform
package).  Go code is shallowly embedded: pure logic becomes Lean
functions, goroutine loops become functions over the finite sequence of
events they observe, external collaborators (Marshal/Unmarshal, UUID
generation, the broker) become explicit parameters.
-/

namespace Platform

/-- A routing entry of the wire envelope (`Route` proto message): a URI-like
destination.  The optional ip address field plays no part in any verified
behaviour. -/
structure Route where
  uri : String
  deriving DecidableEq, Repr

/-- The `Routing` proto message: ordered destination stack `route_to` and
provenance stack `route_from`. -/
structure Routing where
  routeTo : List Route := []
  routeFrom : List Route := []
  deriving DecidableEq, Repr

/-- The `Request` proto message (the wire envelope): correlation uuid,
routing stacks, opaque payload bytes and the completion flag.  proto2
getters default to `""` / `false`; the `context` and `trace` fields play no
part in any verified behaviour. -/
structure Request where
  uuid : String := ""
  routing : Routing := {}
  payload : List Nat := []
  completed : Bool := false
  deriving DecidableEq, Repr

/-- A `RoutedMessage` as used by `StandardRouter.Route` (src/router.go):
the fields the router reads or writes (`Id`, `ReplyTopic`, `Method`,
`Resource`); the rest of the message is carried opaquely through the
abstract `Marshal` parameter. -/
structure RoutedMessage where
  id : String := ""
  replyTopic : String := ""
  method : Int := 0
  resource : Int := 0
  deriving DecidableEq, Repr

/-- The pending-request table `map[string]chan *RoutedMessage` of
`StandardRouter`, as an association list from correlation id to an
abstract waiter token (standing for the reply channel). -/
abbrev PendingTable := List (String × Nat)

/-- Go map deletion: the key is removed entirely. -/
def tableDelete (table : PendingTable) (key : String) : PendingTable :=
  table.filter (fun p => p.1 != key)

/-- Go map insertion: overwrites any previous binding of the key. -/
def tableInsert (table : PendingTable) (key : String) (waiter : Nat) : PendingTable :=
  (key, waiter) :: tableDelete table key

/-- Whether the table holds an entry for the key. -/
def tableHasKey (table : PendingTable) (key : String) : Bool :=
  table.any (fun p => p.1 == key)

/-- The two errors `StandardRouter.Route` can return:
`errors.New("MARSHAL ERROR")` and `errors.New("TIMEOUT")`. -/
inductive RouteErr where
  | marshalError
  | timeout
  deriving DecidableEq, Repr

/-- The outcome of one `Route` call: the returned reply and error, the
pending table after the call, and what (if anything) was published. -/
structure RouteResult where
  response : Option RoutedMessage
  error : Option RouteErr
  table : PendingTable
  published : Option (String × List Nat)
  deriving DecidableEq, Repr

/-- `StandardRouter.Route` (src/router.go lines 24-57), shallowly embedded.
`marshal` abstracts the external `Marshal` collaborator, `freshId` the
value of `CreateUUID()`, `routerTopic` the router's private reply topic,
`waiter` the fresh reply channel, and `reply` the message (if any)
delivered on that channel before the timeout elapses — `none` models the
`time.After(timeout)` branch firing first.  The id is inserted into the
pending table after a successful marshal and deleted again on both the
success and the timeout path. -/
def routeCall (marshal : RoutedMessage → Option (List Nat)) (freshId routerTopic : String)
    (waiter : Nat) (table : PendingTable) (msg : RoutedMessage)
    (reply : Option RoutedMessage) : RouteResult :=
  let tagged := { msg with id := freshId, replyTopic := routerTopic }
  match marshal tagged with
  | none => { response := none, error := some .marshalError, table := table, published := none }
  | some payload =>
    let inserted := tableInsert table tagged.id waiter
    let topic := toString tagged.method ++ "_" ++ toString tagged.resource
    match reply with
    | some r =>
      { response := some r, error := none,
        table := tableDelete inserted tagged.id, published := some (topic, payload) }
    | none =>
      { response := none, error := some .timeout,
        table := tableDelete inserted tagged.id, published := some (topic, payload) }

/-- The outcome of the router's reply-subscription handler for one inbound
body: the pending table afterwards, the waiter resolved (if any) together
with the reply it received, and the error returned to the subscriber. -/
structure ReplyHandleResult where
  table : PendingTable
  resolved : Option (Nat × RoutedMessage)
  error : Option String
  deriving DecidableEq, Repr

/-- The `ConsumerHandlerFunc` that `NewStandardRouter` subscribes on the
router's private topic (src/router.go lines 71-88): a body that fails to
unmarshal is dropped (`return nil`); otherwise the pending table is
consulted under the lock and, when the id is present, the reply is sent to
that waiter's channel.  The handler never inserts into or deletes from the
table and always returns nil. -/
def routerConsume (unmarshal : List Nat → Option RoutedMessage)
    (table : PendingTable) (body : List Nat) : ReplyHandleResult :=
  match unmarshal body with
  | none => { table := table, resolved := none, error := none }
  | some m =>
    match List.lookup m.id table with
    | some w => { table := table, resolved := some (w, m), error := none }
    | none => { table := table, resolved := none, error := none }

/-- The background goroutine of `NewStandardRouter` (src/router.go lines
93-102): `for i := 0; i <= 100; i++ { subscription.Run(); sleep }` and then
`panic("Final connection died. Respawning...")`.  The first argument is the
number of remaining loop iterations (`101 - i`); the second is how many
`subscription.Run()` invocations return to the loop — an invocation beyond
that blocks forever and the loop never advances past it.  Result: how many
`Run` invocations are started, and whether the final panic fires. -/
def routerSubscriptionLoopAux : Nat → Nat → Nat × Bool
  | 0, _ => (0, true)
  | _ + 1, 0 => (1, false)
  | j + 1, r + 1 =>
    let rest := routerSubscriptionLoopAux j r
    (rest.1 + 1, rest.2)

/-- The goroutine of src/router.go lines 93-102 started at `i = 0`:
101 loop iterations are available before the panic statement. -/
def routerSubscriptionLoop (returns : Nat) : Nat × Bool :=
  routerSubscriptionLoopAux 101 returns

/-- An inbound broker delivery as seen by the dispatch loop; only its
identity matters to the dispatch logic, the routing key being examined
solely through each subscription's filter predicate. -/
structure Message where
  routingKey : String
  deriving DecidableEq, Repr

/-- A registered topic subscription of the multiplexer.  `canHandle` is
modelled from the spec: the `subscription` type with its `canHandle`
topic-filter method lives outside src/, so the filter is an abstract
predicate on the delivery, and `capacity` the fixed bound of its
`deliveries` inbox channel.  A non-blocking channel send succeeds exactly
when the inbox holds fewer than `capacity` messages. -/
structure Subscription where
  topic : String
  canHandle : Message → Bool
  capacity : Nat
  deliveries : List Message

/-- One step of the dispatch scan for a single subscription
(src/amqp/subscriber.go lines 106-115): if the filter matches, attempt a
non-blocking send into the inbox (`select { case deliveries <- msg:
... default: }`); the Bool is `true` exactly when the send succeeded and
the loop would set `handled = true`. -/
def tryDeliver (msg : Message) (sub : Subscription) : Subscription × Bool :=
  if sub.canHandle msg then
    if sub.deliveries.length < sub.capacity then
      ({ sub with deliveries := sub.deliveries ++ [msg] }, true)
    else (sub, false)
  else (sub, false)

/-- The body of the dispatch loop for one inbound message
(src/amqp/subscriber.go lines 101-119): scan every subscription in
registration order — the Go `for` ranges over the whole slice with no
break — attempting delivery to each whose filter matches; the Bool is the
final value of `handled`. -/
def dispatchMessage (msg : Message) : List Subscription → List Subscription × Bool
  | [] => ([], false)
  | sub :: rest =>
    let first := tryDeliver msg sub
    let others := dispatchMessage msg rest
    (first.1 :: others.1, first.2 || others.2)

/-- `if !handled { msg.Reject(true) }` (src/amqp/subscriber.go lines
117-119): the message is rejected with a requeue request exactly when no
delivery attempt succeeded. -/
def dispatchRejectsRequeue (msg : Message) (subs : List Subscription) : Bool :=
  !(dispatchMessage msg subs).2

/-- A setup step of `Subscriber.run` (src/amqp/subscriber.go lines 42-92)
whose failure makes `run` return that error, in source order. -/
inductive SetupStep where
  | dial
  | getChannel
  | queueDeclare
  | queueBind
  | consume
  deriving DecidableEq, Repr

/-- The event that ends one dispatch loop: the three non-message cases of
the `select` of src/amqp/subscriber.go lines 101-134. -/
inductive DispatchExit where
  | connectionClosed
  | channelClosed
  | quitSignal
  deriving DecidableEq, Repr

/-- What one invocation of `Subscriber.run` amounts to, abstracting the
broker: either some setup step fails, or setup succeeds and the dispatch
loop runs until one of its three exit events fires. -/
inductive RunAttempt where
  | setupFailed (step : SetupStep)
  | dispatched (exitEvent : DispatchExit)
  deriving DecidableEq, Repr

/-- The value `Subscriber.run` returns: a setup error, `nil` (after the
connection or the channel reported closed), or the sentinel
`subscriberClosed` error. -/
inductive RunReturn where
  | setupError (step : SetupStep)
  | normal
  | subscriberClosed
  deriving DecidableEq, Repr

/-- The return value of `Subscriber.run` for a given attempt
(src/amqp/subscriber.go lines 42-137): a failed setup step returns its
error; `connectionClosed` and `channelInterfaceClosed` set `iterate =
false` and fall through to `return nil`; the quit signal returns the
sentinel `subscriberClosed`. -/
def runReturn : RunAttempt → RunReturn
  | .setupFailed step => .setupError step
  | .dispatched .connectionClosed => .normal
  | .dispatched .channelClosed => .normal
  | .dispatched .quitSignal => .subscriberClosed

/-- The reconnect goroutine of `Subscriber.Run` (src/amqp/subscriber.go
lines 145-158) run against a finite sequence of attempt outcomes: `run` is
invoked repeatedly; a `subscriberClosed` return makes the goroutine return
permanently, every other return (nil or a logged setup error) continues
the loop.  Result: the number of `run` cycles executed, and whether the
loop has stopped permanently. -/
def reconnectLoop : List RunAttempt → Nat × Bool
  | [] => (0, false)
  | a :: rest =>
    match runReturn a with
    | .subscriberClosed => (1, true)
    | _ =>
      let more := reconnectLoop rest
      (more.1 + 1, more.2)

/-- The three possible outcomes of one iteration of the publishing
goroutine of `NewCourier`: a runtime index fault, a logged marshal skip
(carrying the already-popped routing), or a publish to the popped
destination's URI. -/
inductive CourierOutcome where
  | indexPanic
  | marshalFailed (rest : Routing)
  | published (uri : String) (body : List Nat) (rest : Routing)
  deriving DecidableEq, Repr

/-- The reply with its destination stack popped by one hop:
`response.Routing.RouteTo = response.Routing.RouteTo[:len-1]`. -/
def popDestination (response : Request) : Request :=
  { response with
      routing := { response.routing with routeTo := response.routing.routeTo.dropLast } }

/-- One iteration of the publishing goroutine of `NewCourier`
(src/unnamed/part_001 lines 39-58).  The Go code computes
`destinationRouteIndex := len(response.Routing.RouteTo) - 1` and indexes
`RouteTo` with it unconditionally: on an empty stack the index is `-1` and
the slice access raises an index-out-of-range runtime fault, modelled by
`.indexPanic`.  Otherwise the last entry is popped, the remainder is
marshalled (a failure is logged and the iteration skipped), and the body
is published to the popped entry's URI. -/
def courierPublishStep (marshal : Request → Option (List Nat))
    (response : Request) : CourierOutcome :=
  match response.routing.routeTo.getLast? with
  | none => .indexPanic
  | some destinationRoute =>
    let popped := popDestination response
    match marshal popped with
    | none => .marshalFailed popped.routing
    | some body => .published destinationRoute.uri body popped.routing

/-- Modelled from the spec: `GenerateResponse` (defined outside src/)
builds a reply to `request` from `response`, echoing the request's
correlation identifier unchanged onto the reply; the reply's own routing,
payload and `completed` flag are preserved. -/
def GenerateResponse (request response : Request) : Request :=
  { response with uuid := request.uuid }

/-- Modelled from the spec: `RouteToUri` (defined outside src/) builds a
routing whose destination stack holds the single given URI. -/
def RouteToUri (uri : String) : Routing :=
  { routeTo := [{ uri := uri }], routeFrom := [] }

/-- The heartbeat emission interval in milliseconds:
`time.After(500 * time.Millisecond)` (src/unnamed/part_001 line 89). -/
def heartbeatIntervalMs : Nat := 500

/-- The intermediate reply emitted on each heartbeat tick
(src/unnamed/part_001 lines 90-92): a response to the request routed to
`"resource:///heartbeat"`, with the `completed` flag left at its default. -/
def heartbeatResponse (request : Request) : Request :=
  GenerateResponse request { routing := RouteToUri "resource:///heartbeat" }

/-- An event observed by the heartbeat goroutine's `select`
(src/unnamed/part_001 lines 86-99): either the 500 ms timer fires, or the
quit signal — sent by `Send` on a completed reply — is received. -/
inductive HeartbeatEvent where
  | tick
  | quitReceived
  deriving DecidableEq, Repr

/-- The heartbeat goroutine of `NewRequestHeartbeatCourier` applied to the
sequence of events it observes: the heartbeat replies it hands to
`parent.Send`, one per timer tick; the goroutine returns at the first
received quit signal and emits nothing afterwards. -/
def heartbeatEmissions (request : Request) : List HeartbeatEvent → List Request
  | [] => []
  | .tick :: rest => heartbeatResponse request :: heartbeatEmissions request rest
  | .quitReceived :: _ => []

/-- `RequestHeartbeatCourier.Send` (src/unnamed/part_001 lines 70-79):
when the response carries the completed flag, `true` is placed on the
`quit` channel; the response is then forwarded unchanged to the parent
courier.  The Bool is whether the quit signal has been emitted so far. -/
def rhcSend (quitSignaled : Bool) (response : Request) : Bool × Request :=
  (quitSignaled || response.completed, response)

/-- Modelled from the spec: `Getenv` (defined outside src/) returns the
variable's value when it is set and the supplied default otherwise — the
fault-containment toggle `PLATFORM_PREVENT_PANICS` therefore defaults to
`"1"` (on). -/
def Getenv (value : Option String) (dflt : String) : String :=
  value.getD dflt

/-- The two ways the application handler invocation can end. -/
inductive HandlerRun where
  | completes
  | panics (description : String)
  deriving DecidableEq, Repr

/-- The observable effects of the wrapper that `Service.AddHandler`
registers, for one decoded inbound request: the replies the wrapper itself
sends through the heartbeat courier, its diagnostic publishes, whether the
heartbeat courier's quit signal fired on the wrapper's reply, and a fault
escaping the wrapper (which would crash the process). -/
structure HandleEffects where
  wrapperReplies : List Request
  diagnosticPublishes : List (String × List Nat)
  courierQuitSignaled : Bool
  escapedFault : Option String
  deriving DecidableEq, Repr

/-- The `Error` payload of the panic reply (src/unnamed/part_001 lines
160-162): `"A fatal error has occurred. <path>: <origin> <value>"`, where
`origin` abstracts `identifyPanic()` and `marshalErr` the external
`Marshal` of the `Error` message. -/
def panicErrorBytes (marshalErr : String → List Nat)
    (path origin description : String) : List Nat :=
  marshalErr ("A fatal error has occurred. " ++ path ++ ": " ++ origin ++ " " ++ description)

/-- The completed error reply the deferred recovery sends
(src/unnamed/part_001 lines 164-168): routed to the fixed destination
`"resource:///platform/reply/error"`, carrying the fault description, with
`Completed: Bool(true)`. -/
def panicReply (marshalErr : String → List Nat)
    (path origin description : String) (request : Request) : Request :=
  GenerateResponse request
    { routing := RouteToUri "resource:///platform/reply/error",
      payload := panicErrorBytes marshalErr path origin description,
      completed := true }

/-- The `ConsumerHandlerFunc` body that `Service.AddHandler` registers
(src/unnamed/part_001 lines 145-178), for one decoded request.
`preventPanicsEnv` is the raw `PLATFORM_PREVENT_PANICS` variable (`none`
when unset), `run` how the application handler invocation ends, `body`
the raw inbound bytes.  When containment is on and the handler panics, the
deferred `recover` sends exactly one completed error reply through the
request's heartbeat courier and publishes the raw body to
`"panic." ++ path`; the fault does not escape.  When containment is off, a
panic escapes the wrapper. -/
def serviceHandleRequest (preventPanicsEnv : Option String)
    (marshalErr : String → List Nat) (path origin : String)
    (request : Request) (body : List Nat) (run : HandlerRun) : HandleEffects :=
  match run with
  | .completes =>
    { wrapperReplies := [], diagnosticPublishes := [],
      courierQuitSignaled := false, escapedFault := none }
  | .panics description =>
    if Getenv preventPanicsEnv "1" == "1" then
      let reply := panicReply marshalErr path origin description request
      { wrapperReplies := [reply],
        diagnosticPublishes := [("panic." ++ path, body)],
        courierQuitSignaled := (rhcSend false reply).1,
        escapedFault := none }
    else
      { wrapperReplies := [], diagnosticPublishes := [],
        courierQuitSignaled := false, escapedFault := some description }

/-- Modelled from the spec: the events of the process-wide in-flight work
counter.  The increment and decrement sites
(`incrementConsumedWorkCount` / `decrementConsumedWorkCount`, defined
outside src/) fire respectively when a handler invocation begins and when
it ends. -/
inductive WorkEvent where
  | beginHandler
  | endHandler
  deriving DecidableEq, Repr

/-- Modelled from the spec: the process-wide `consumedWorkCount` after a
history of events, starting from the value `c`: incremented on each
handler begin, decremented on each handler end. -/
def consumedWorkCountFrom (c : Int) : List WorkEvent → Int
  | [] => c
  | .beginHandler :: rest => consumedWorkCountFrom (c + 1) rest
  | .endHandler :: rest => consumedWorkCountFrom (c - 1) rest

/-- Modelled from the spec: the process-wide `consumedWorkCount` (declared
in src/unnamed/part_001 line 18), starting from zero. -/
def consumedWorkCount (events : List WorkEvent) : Int :=
  consumedWorkCountFrom 0 events

/-- Executable well-formedness of an event history starting from counter
value `c`: every handler end is preceded by a matching begin, so the
running counter never goes below zero. -/
def historyOk (c : Int) : List WorkEvent → Bool
  | [] => true
  | .beginHandler :: rest => historyOk (c + 1) rest
  | .endHandler :: rest => if c ≤ 0 then false else historyOk (c - 1) rest

/-- The shutdown goroutine of `Service.Run` (src/unnamed/part_001 lines
193-208): after the termination signal, the counter is polled in a loop
that breaks — letting `os.Exit(0)` run — at the first observation strictly
below one.  Given the successive observations of `getConsumerWorkCount()`,
returns the index of the poll at which the process exits, if any. -/
def drainExitIndex : List Int → Option Nat
  | [] => none
  | c :: rest => if c < 1 then some 0 else (drainExitIndex rest).map (· + 1)

/-- A concrete delivery used by the C1 witnesses. -/
def sampleMsg : Message := { routingKey := "a.1" }

/-- A concrete match-everything subscription with a one-slot empty inbox,
used by the C1 witnesses. -/
def sampleSub : Subscription :=
  { topic := "a.*", canHandle := fun _ => true, capacity := 1, deliveries := [] }

/-- A concrete non-matching subscription, used by the C1 witness. -/
def sampleSubNoMatch : Subscription :=
  { topic := "b.*", canHandle := fun _ => false, capacity := 1, deliveries := [] }

/-- A concrete reply used by the courier witnesses. -/
def sampleReply : Request :=
  { uuid := "u-1", routing := { routeTo := [{ uri := "topic://caller" }] } }

/-- A marshaller that always succeeds, used by witnesses. -/
def sampleMarshal : Request → Option (List Nat) := fun _ => some [7]

/-- A routed message used by the router witnesses. -/
def sampleRoutedMsg : RoutedMessage := { method := 2, resource := 5 }

/-- A routed-message marshaller that always succeeds, used by witnesses. -/
def sampleRMarshal : RoutedMessage → Option (List Nat) := fun _ => some [1]

/-- A routed-message marshaller that always fails, used by witnesses. -/
def sampleRMarshalFail : RoutedMessage → Option (List Nat) := fun _ => none

/-- A pending table holding one unrelated entry, used by witnesses. -/
def sampleTable : PendingTable := [("old", 7)]

/-- An unmarshaller producing a message whose id is pending nowhere, used
by the C8 witness. -/
def sampleUnmarshal : List Nat → Option RoutedMessage := fun _ => some { id := "zz" }

/-- Two retryable run attempts (a dial failure and a broker-side
disconnect), used by the C5 witness. -/
def sampleAttempts : List RunAttempt := [.setupFailed .dial, .dispatched .connectionClosed]

/-- The counter histories of the shutdown scenario: three handler
invocations in flight at the shutdown signal, completing one by one across
the successive polls. -/
def drainHistories : List (List WorkEvent) :=
  [[.beginHandler, .beginHandler, .beginHandler],
   [.beginHandler, .beginHandler, .beginHandler, .endHandler],
   [.beginHandler, .beginHandler, .beginHandler, .endHandler, .endHandler],
   [.beginHandler, .beginHandler, .beginHandler, .endHandler, .endHandler, .endHandler]]

/-! ## Helper lemmas -/

/-- Deleting a key from the pending table removes every entry for it. -/
theorem tableHasKey_delete (t : PendingTable) (k : String) :
    tableHasKey (tableDelete t k) k = false := by
  induction t with
  | nil => rfl
  | cons p rest ih =>
    by_cases hp : p.1 = k
    · simp [tableDelete, tableHasKey, List.filter_cons, hp] at ih ⊢
    · simp [tableDelete, tableHasKey, List.filter_cons, hp] at ih ⊢

/-- Characterisation of `routerSubscriptionLoopAux`: with `j` loop
iterations available, at most `j` invocations of `subscription.Run()` are
started, and the final panic fires exactly when at least `j` invocations
return. -/
theorem routerSubscriptionLoopAux_spec (j r : Nat) :
    (routerSubscriptionLoopAux j r).1 ≤ j ∧
    (routerSubscriptionLoopAux j r).2 = decide (j ≤ r) := by
  induction j generalizing r with
  | zero => simp [routerSubscriptionLoopAux]
  | succ j ih =>
    cases r with
    | zero => simp [routerSubscriptionLoopAux]
    | succ r =>
      obtain ⟨h1, h2⟩ := ih r
      refine ⟨?_, ?_⟩
      · simpa [routerSubscriptionLoopAux] using Nat.succ_le_succ h1
      · simp [routerSubscriptionLoopAux, h2]

/-! ## C4 — Route timeout -/

/-- C4: `StandardRouter.Route` (src/router.go lines 24-57).  When the
outbound message marshals successfully and no reply bearing the generated
identifier arrives before the timeout elapses, `Route` returns the
`TIMEOUT` error and a nil reply; and whichever way the call returns
(reply delivered or timeout), the pending-request table afterwards holds
no entry for the generated identifier. -/
theorem route_timeout_returns_error_and_clears_table
    (marshal : RoutedMessage → Option (List Nat)) (freshId routerTopic : String)
    (waiter : Nat) (table : PendingTable) (msg : RoutedMessage) (payload : List Nat)
    (hm : marshal { msg with id := freshId, replyTopic := routerTopic } = some payload) :
    ((routeCall marshal freshId routerTopic waiter table msg none).error = some .timeout) ∧
    ((routeCall marshal freshId routerTopic waiter table msg none).response = none) ∧
    (∀ reply : Option RoutedMessage,
      tableHasKey (routeCall marshal freshId routerTopic waiter table msg reply).table freshId
        = false) := by
  refine ⟨?_, ?_, ?_⟩
  · simp [routeCall, hm]
  · simp [routeCall, hm]
  · intro reply
    cases reply with
    | none => simpa [routeCall, hm] using tableHasKey_delete (tableInsert table freshId waiter) freshId
    | some r => simpa [routeCall, hm] using tableHasKey_delete (tableInsert table freshId waiter) freshId

/-- C4 witness: a concrete timed-out call returns the timeout error and
leaves no pending entry for the generated identifier. -/
theorem route_timeout_returns_error_and_clears_table_witness :
    ((routeCall sampleRMarshal "id-1" "router_x" 0 sampleTable sampleRoutedMsg none).error
      = some .timeout) ∧
    tableHasKey (routeCall sampleRMarshal "id-1" "router_x" 0 sampleTable sampleRoutedMsg none).table
      "id-1" = false := by
  have h := route_timeout_returns_error_and_clears_table sampleRMarshal "id-1" "router_x" 0
    sampleTable sampleRoutedMsg [1] rfl
  exact ⟨h.1, h.2.2 none⟩

/-! ## C8 — unknown reply identifiers -/

/-- C8: the reply-subscription handler of `NewStandardRouter`
(src/router.go lines 71-88).  A decoded reply whose identifier has no
entry in the pending-request table is discarded: the handler returns no
error, resolves no waiter, and leaves the table exactly as it was. -/
theorem router_discards_unknown_reply
    (unmarshal : List Nat → Option RoutedMessage) (table : PendingTable)
    (body : List Nat) (m : RoutedMessage)
    (hu : unmarshal body = some m) (hk : List.lookup m.id table = none) :
    routerConsume unmarshal table body =
      { table := table, resolved := none, error := none } := by
  simp [routerConsume, hu, hk]

/-- C8 witness: a concrete spurious reply is discarded without error and
without touching the table. -/
theorem router_discards_unknown_reply_witness :
    routerConsume sampleUnmarshal sampleTable [9] =
      { table := sampleTable, resolved := none, error := none } :=
  router_discards_unknown_reply sampleUnmarshal sampleTable [9] { id := "zz" } rfl (by decide)

/-! ## C9 — marshal failure inside Route -/

/-- C9: `StandardRouter.Route` (src/router.go lines 30-41).  When
serialization of the outbound request fails, `Route` returns the
`MARSHAL ERROR` error before publishing anything and before registering a
waiter: nothing is published and the pending-request table is returned
exactly as it was. -/
theorem route_marshal_failure_leaves_table_unchanged
    (marshal : RoutedMessage → Option (List Nat)) (freshId routerTopic : String)
    (waiter : Nat) (table : PendingTable) (msg : RoutedMessage)
    (hm : marshal { msg with id := freshId, replyTopic := routerTopic } = none) :
    ∀ reply : Option RoutedMessage,
      routeCall marshal freshId routerTopic waiter table msg reply =
        { response := none, error := some .marshalError, table := table, published := none } := by
  intro reply
  simp [routeCall, hm]

/-- C9 witness: a concrete failing marshal returns the marshal error with
the table untouched and nothing published. -/
theorem route_marshal_failure_leaves_table_unchanged_witness :
    routeCall sampleRMarshalFail "id-2" "router_x" 0 sampleTable sampleRoutedMsg none =
      { response := none, error := some .marshalError, table := sampleTable, published := none } :=
  route_marshal_failure_leaves_table_unchanged sampleRMarshalFail "id-2" "router_x" 0
    sampleTable sampleRoutedMsg rfl none

/-! ## C10 — bounded subscription respawn -/

/-- C10: the background goroutine of `NewStandardRouter` (src/router.go
lines 93-102).  However many `subscription.Run()` invocations return, at
most 101 are ever started (the loop runs `i = 0..100`); when all 101
iterations complete, the goroutine raises the final panic instead of
retrying further or reporting an error — the Bool of
`routerSubscriptionLoop` records that the panic statement is reached. -/
theorem router_subscription_loop_bounded_then_panics :
    routerSubscriptionLoop 101 = (101, true) ∧
    ∀ returns : Nat,
      (routerSubscriptionLoop returns).1 ≤ 101 ∧
      (routerSubscriptionLoop returns).2 = decide (101 ≤ returns) := by
  refine ⟨rfl, ?_⟩
  intro returns
  exact routerSubscriptionLoopAux_spec 101 returns

/-! ## C1 — dispatch fan-out -/

/-- The success flag of one delivery attempt: the send succeeds exactly
when the filter matches and the inbox has room. -/
theorem tryDeliver_snd (msg : Message) (sub : Subscription) :
    (tryDeliver msg sub).2 =
      (sub.canHandle msg && decide (sub.deliveries.length < sub.capacity)) := by
  by_cases h1 : sub.canHandle msg
  · by_cases h2 : sub.deliveries.length < sub.capacity
    · simp [tryDeliver, h1, h2]
    · simp [tryDeliver, h1, h2]
  · simp [tryDeliver, h1]

/-- The dispatch scan updates every subscription independently via its own
delivery attempt, and `handled` is true iff some attempt succeeded. -/
theorem dispatchMessage_spec (msg : Message) (subs : List Subscription) :
    ((dispatchMessage msg subs).1 = subs.map fun s => (tryDeliver msg s).1) ∧
    ((dispatchMessage msg subs).2 =
      subs.any fun s => s.canHandle msg && decide (s.deliveries.length < s.capacity)) := by
  induction subs with
  | nil => simp [dispatchMessage]
  | cons sub rest ih =>
    obtain ⟨ih1, ih2⟩ := ih
    refine ⟨?_, ?_⟩
    · simp [dispatchMessage, ih1]
    · simp [dispatchMessage, ih2, tryDeliver_snd]

/-- C1 counterexample: the dispatch loop of src/amqp/subscriber.go lines
101-119 scans the whole subscription list with no break after a successful
delivery.  A message matching two registered subscriptions, each with a
free inbox slot, is delivered into both inboxes, so it reaches a later
matching subscription besides the first — refuting "delivers the message
to at most one subscription — the first, in registration order, whose
topic filter matches — and to no later matching subscription". -/
theorem dispatch_first_match_only_refuted :
    ((dispatchMessage sampleMsg [sampleSub, sampleSub]).1.map Subscription.deliveries
      = [[sampleMsg], [sampleMsg]]) ∧
    (dispatchMessage sampleMsg [sampleSub, sampleSub]).2 = true := by
  exact ⟨rfl, rfl⟩

/-- C1 (amended): the dispatch loop delivers the inbound message to every
registered subscription, in registration order, whose topic filter matches
and whose inbox has a free slot — possibly more than one — leaves every
other subscription untouched, and rejects the message with a requeue
request exactly when no delivery attempt succeeded (no filter matched, or
every matching inbox was full). -/
theorem dispatch_delivers_every_matching_subscription
    (msg : Message) (subs : List Subscription) :
    ((dispatchMessage msg subs).1 = subs.map fun s => (tryDeliver msg s).1) ∧
    (∀ s : Subscription, s.canHandle msg = true → s.deliveries.length < s.capacity →
      (tryDeliver msg s).1.deliveries = s.deliveries ++ [msg]) ∧
    (∀ s : Subscription, s.canHandle msg = false ∨ s.capacity ≤ s.deliveries.length →
      (tryDeliver msg s).1 = s) ∧
    ((dispatchMessage msg subs).2 =
      subs.any fun s => s.canHandle msg && decide (s.deliveries.length < s.capacity)) ∧
    (dispatchRejectsRequeue msg subs = !(dispatchMessage msg subs).2) := by
  obtain ⟨h1, h2⟩ := dispatchMessage_spec msg subs
  refine ⟨h1, ?_, ?_, h2, rfl⟩
  · intro s hc hroom
    simp [tryDeliver, hc, hroom]
  · intro s h
    rcases h with hc | hfull
    · simp [tryDeliver, hc]
    · by_cases hc : s.canHandle msg
      · simp [tryDeliver, hc, Nat.not_lt.mpr hfull]
      · simp [tryDeliver, hc]

/-- C1 witness: a matching subscription with room receives the message, a
non-matching one is untouched, and a message some subscription accepted is
not rejected. -/
theorem dispatch_delivers_every_matching_subscription_witness :
    ((tryDeliver sampleMsg sampleSub).1.deliveries = [sampleMsg]) ∧
    ((tryDeliver sampleMsg sampleSubNoMatch).1 = sampleSubNoMatch) ∧
    ((dispatchMessage sampleMsg [sampleSubNoMatch, sampleSub]).2 = true) := by
  refine ⟨?_, ?_, ?_⟩
  · have h := (dispatch_delivers_every_matching_subscription sampleMsg []).2.1 sampleSub
      rfl (by decide)
    simpa using h
  · exact (dispatch_delivers_every_matching_subscription sampleMsg []).2.2.1
      sampleSubNoMatch (Or.inl rfl)
  · have h :=
      (dispatch_delivers_every_matching_subscription sampleMsg [sampleSubNoMatch, sampleSub]).2.2.2.1
    rw [h]
    rfl

/-! ## C5 — terminal vs retryable exits -/

/-- A reconnect loop fed only retryable outcomes (setup errors or
broker-side disconnects) executes every cycle and never stops. -/
theorem reconnectLoop_all_retryable (pre : List RunAttempt)
    (hpre : ∀ a ∈ pre, runReturn a ≠ .subscriberClosed) :
    reconnectLoop pre = (pre.length, false) := by
  induction pre with
  | nil => rfl
  | cons a rest ih =>
    have ha := hpre a (by simp)
    have hrest := ih fun b hb => hpre b (by simp [hb])
    cases hr : runReturn a with
    | subscriberClosed => exact absurd hr ha
    | normal => simp [reconnectLoop, hr, hrest]
    | setupError step => simp [reconnectLoop, hr, hrest]

/-- C5: `Subscriber.run` and the reconnect goroutine of `Subscriber.Run`
(src/amqp/subscriber.go lines 42-162).  The quit signal is the only
attempt outcome `run` maps to the terminal `subscriberClosed` return —
connection-closed and channel-closed events and every failed setup step
(dial, channel, declare, bind, consume) are retryable.  Fed any sequence
of retryable outcomes followed by a quit, the loop executes one cycle per
retryable outcome plus the closing one and then stops permanently: no
cycle after the quit is ever run, whatever follows it. -/
theorem reconnect_loop_retries_until_explicit_close
    (pre post : List RunAttempt)
    (hpre : ∀ a ∈ pre, runReturn a ≠ .subscriberClosed) :
    (∀ a : RunAttempt, runReturn a = .subscriberClosed ↔ a = .dispatched .quitSignal) ∧
    reconnectLoop (pre ++ .dispatched .quitSignal :: post) = (pre.length + 1, true) ∧
    reconnectLoop pre = (pre.length, false) := by
  refine ⟨?_, ?_, reconnectLoop_all_retryable pre hpre⟩
  · intro a
    cases a with
    | setupFailed step => simp [runReturn]
    | dispatched e => cases e <;> simp [runReturn]
  · induction pre with
    | nil => rfl
    | cons a rest ih =>
      have ha := hpre a (by simp)
      have hrest := ih fun b hb => hpre b (by simp [hb])
      cases hr : runReturn a with
      | subscriberClosed => exact absurd hr ha
      | normal => simp [reconnectLoop, hr, hrest]
      | setupError step => simp [reconnectLoop, hr, hrest]

/-- C5 witness: after a failed dial and a broker-side disconnect, a quit
signal stops the loop at its third cycle and nothing queued behind it
runs. -/
theorem reconnect_loop_retries_until_explicit_close_witness :
    reconnectLoop (sampleAttempts ++ .dispatched .quitSignal :: [.setupFailed .queueBind])
      = (3, true) := by
  have h := reconnect_loop_retries_until_explicit_close sampleAttempts
    [.setupFailed .queueBind] (by decide)
  simpa using h.2.1

/-! ## C2 — courier destination stack -/

/-- C2 counterexample: one iteration of the publishing goroutine of
`NewCourier` (src/unnamed/part_001 lines 39-58) on a reply whose
destination stack is empty.  The claim states that an empty stack makes
the publish a logged skip and that sending never raises a fault; the code
computes `destinationRouteIndex = len - 1 = -1` and indexes the slice with
it, an index-out-of-range runtime fault — even with a marshaller that
always succeeds the outcome is the fault, not a skip. -/
theorem courier_empty_stack_faults :
    courierPublishStep (fun _ => some []) { uuid := "u-0" } = .indexPanic ∧
    courierPublishStep (fun _ => some []) { uuid := "u-0" }
      ≠ .marshalFailed { routeTo := [], routeFrom := [] } := by
  refine ⟨rfl, ?_⟩
  intro h
  exact CourierOutcome.noConfusion h

/-- C2 (amended): every reply with a non-empty destination stack has its
last entry popped off and, when the popped reply marshals, is published to
that entry's URI; a marshal failure is a logged skip.  A reply with an
empty destination stack is not guarded against: it produces the
index-out-of-range fault rather than a logged skip. -/
theorem courier_send_pops_destination_stack
    (marshal : Request → Option (List Nat)) (response : Request) :
    (response.routing.routeTo = [] → courierPublishStep marshal response = .indexPanic) ∧
    (∀ dest : Route, response.routing.routeTo.getLast? = some dest →
      (∀ body : List Nat, marshal (popDestination response) = some body →
        courierPublishStep marshal response =
          .published dest.uri body (popDestination response).routing) ∧
      (marshal (popDestination response) = none →
        courierPublishStep marshal response = .marshalFailed (popDestination response).routing)) ∧
    ((popDestination response).routing.routeTo = response.routing.routeTo.dropLast) := by
  refine ⟨?_, ?_, rfl⟩
  · intro h
    simp [courierPublishStep, h]
  · intro dest hd
    refine ⟨?_, ?_⟩
    · intro body hb
      simp [courierPublishStep, hd, hb]
    · intro hb
      simp [courierPublishStep, hd, hb]

/-- C2 witness: a concrete reply with a one-entry destination stack is
published to that entry's URI with the stack emptied. -/
theorem courier_send_pops_destination_stack_witness :
    courierPublishStep sampleMarshal sampleReply =
      .published "topic://caller" [7] { routeTo := [], routeFrom := [] } := by
  have h := ((courier_send_pops_destination_stack sampleMarshal sampleReply).2.1
    { uri := "topic://caller" } rfl).1 [7] rfl
  exact h

/-! ## C6 — heartbeat termination -/

/-- The heartbeat goroutine emits one heartbeat per timer tick and nothing
at or after the first received quit signal. -/
theorem heartbeatEmissions_stop_at_quit (request : Request)
    (pre post : List HeartbeatEvent) (hpre : HeartbeatEvent.quitReceived ∉ pre) :
    heartbeatEmissions request (pre ++ .quitReceived :: post) =
      pre.map fun _ => heartbeatResponse request := by
  induction pre with
  | nil => rfl
  | cons e rest ih =>
    cases e with
    | quitReceived => exact absurd (by simp) hpre
    | tick =>
      have hrest : HeartbeatEvent.quitReceived ∉ rest := fun hm => hpre (by simp [hm])
      simp [heartbeatEmissions, ih hrest]

/-- C6: `NewRequestHeartbeatCourier` and `RequestHeartbeatCourier.Send`
(src/unnamed/part_001 lines 65-105).  The emission interval is the fixed
500 ms of `time.After(500 * time.Millisecond)`; `Send` places the quit
signal exactly when the reply passing through it carries the completed
flag; and the emitter goroutine, run over the events it observes, emits
one non-completed heartbeat per timer tick before the quit signal and no
heartbeat at or after it. -/
theorem heartbeat_stops_after_completed_reply (request : Request)
    (pre post : List HeartbeatEvent) (hpre : HeartbeatEvent.quitReceived ∉ pre) :
    heartbeatIntervalMs = 500 ∧
    (heartbeatEmissions request (pre ++ .quitReceived :: post) =
      pre.map fun _ => heartbeatResponse request) ∧
    (∀ hb ∈ heartbeatEmissions request (pre ++ .quitReceived :: post), hb.completed = false) ∧
    (∀ (quitSignaled : Bool) (response : Request),
      (rhcSend quitSignaled response).1 = (quitSignaled || response.completed) ∧
      (rhcSend quitSignaled response).2 = response) := by
  refine ⟨rfl, heartbeatEmissions_stop_at_quit request pre post hpre, ?_, fun q response => ⟨rfl, rfl⟩⟩
  intro hb hmem
  rw [heartbeatEmissions_stop_at_quit request pre post hpre] at hmem
  obtain ⟨e, _, he⟩ := List.mem_map.mp hmem
  rw [← he]
  rfl

/-- C6 witness: two ticks before the quit signal yield exactly two
heartbeats; the tick queued after the quit yields none. -/
theorem heartbeat_stops_after_completed_reply_witness :
    heartbeatEmissions sampleReply ([.tick, .tick] ++ .quitReceived :: [.tick]) =
      [heartbeatResponse sampleReply, heartbeatResponse sampleReply] := by
  have h := heartbeat_stops_after_completed_reply sampleReply [.tick, .tick] [.tick] (by decide)
  simpa using h.2.1

/-! ## C7 — panic containment -/

/-- C7: the wrapper `Service.AddHandler` registers (src/unnamed/part_001
lines 142-179).  The containment toggle `PLATFORM_PREVENT_PANICS` defaults
to on when the variable is unset; with it on, a handler panic makes the
deferred recovery send exactly one reply through the request's heartbeat
courier — completed, addressed to the fixed diagnostic destination
`resource:///platform/reply/error`, and carrying the fault description —
publish exactly one diagnostic event on `"panic." ++ path` with the raw
request body, and let no fault escape the wrapper, so the process and the
other in-flight handlers keep running; the completed reply also fires the
heartbeat courier's quit signal. -/
theorem panic_containment_sends_one_error_reply :
    Getenv none "1" = "1" ∧
    ∀ (marshalErr : String → List Nat) (path origin : String) (request : Request)
      (body : List Nat) (description : String),
      ((serviceHandleRequest none marshalErr path origin request body
          (.panics description)).wrapperReplies.length = 1) ∧
      ((serviceHandleRequest none marshalErr path origin request body
          (.panics description)).wrapperReplies.map Request.completed = [true]) ∧
      ((serviceHandleRequest none marshalErr path origin request body
          (.panics description)).wrapperReplies.map (fun reply => reply.routing.routeTo)
        = [[{ uri := "resource:///platform/reply/error" }]]) ∧
      ((serviceHandleRequest none marshalErr path origin request body
          (.panics description)).wrapperReplies.map Request.payload
        = [panicErrorBytes marshalErr path origin description]) ∧
      ((serviceHandleRequest none marshalErr path origin request body
          (.panics description)).diagnosticPublishes = [("panic." ++ path, body)]) ∧
      ((serviceHandleRequest none marshalErr path origin request body
          (.panics description)).courierQuitSignaled = true) ∧
      ((serviceHandleRequest none marshalErr path origin request body
          (.panics description)).escapedFault = none) := by
  refine ⟨rfl, ?_⟩
  intro marshalErr path origin request body description
  refine ⟨rfl, rfl, rfl, rfl, rfl, rfl, rfl⟩

/-! ## C3 — in-flight counter and graceful drain -/

/-- A well-formed continuation keeps the counter at or above its
non-negative starting value floor. -/
theorem consumedWorkCountFrom_nonneg (events : List WorkEvent) :
    ∀ c : Int, historyOk c events = true → 0 ≤ c → 0 ≤ consumedWorkCountFrom c events := by
  induction events with
  | nil =>
    intro c _ hc
    simpa [consumedWorkCountFrom] using hc
  | cons e rest ih =>
    intro c h hc
    cases e with
    | beginHandler =>
      exact ih (c + 1) (by simpa [historyOk] using h) (by omega)
    | endHandler =>
      rw [historyOk] at h
      by_cases h0 : c ≤ 0
      · simp [h0] at h
      · exact ih (c - 1) (by simpa [h0] using h) (by omega)

/-- The drain loop breaks exactly at an observation strictly below one. -/
theorem drainExitIndex_spec (obs : List Int) :
    ∀ k : Nat, drainExitIndex obs = some k → ∀ h : k < obs.length, obs.get ⟨k, h⟩ < 1 := by
  induction obs with
  | nil =>
    intro k hk
    simp [drainExitIndex] at hk
  | cons c rest ih =>
    intro k hk h
    rw [drainExitIndex] at hk
    by_cases hc : c < 1
    · simp [hc] at hk
      subst hk
      simpa using hc
    · simp [hc] at hk
      obtain ⟨m, hm, hmk⟩ := hk
      subst hmk
      simpa using ih m hm (by simpa using h)

/-- C3: the in-flight work counter (increment/decrement sites modelled
from the spec, the sites themselves being outside src/) and the shutdown
goroutine of `Service.Run` (src/unnamed/part_001 lines 185-213).  For
histories in which every handler end is preceded by its begin, the counter
is never negative; and when the post-signal drain loop breaks — the only
way `os.Exit(0)` is reached — the poll it broke on observed a counter
strictly below one, hence exactly zero. -/
theorem inflight_counter_nonneg_and_gates_exit (histories : List (List WorkEvent))
    (hwf : ∀ events ∈ histories, historyOk 0 events = true)
    (k : Nat) (hk : k < histories.length)
    (hexit : drainExitIndex (histories.map consumedWorkCount) = some k) :
    (∀ events ∈ histories, 0 ≤ consumedWorkCount events) ∧
    consumedWorkCount (histories.get ⟨k, hk⟩) = 0 := by
  have nonneg : ∀ events ∈ histories, 0 ≤ consumedWorkCount events := fun events he =>
    consumedWorkCountFrom_nonneg events 0 (hwf events he) le_rfl
  refine ⟨nonneg, ?_⟩
  have hlen : k < (histories.map consumedWorkCount).length := by simpa using hk
  have hobs := drainExitIndex_spec (histories.map consumedWorkCount) k hexit hlen
  have hval : (histories.map consumedWorkCount).get ⟨k, hlen⟩ =
      consumedWorkCount (histories.get ⟨k, hk⟩) := by
    simp [List.get_eq_getElem]
  have hnn := nonneg (histories.get ⟨k, hk⟩) (histories.get_mem k hk)
  rw [hval] at hobs
  omega

/-- C3 witness: three requests in flight at the shutdown signal — the
drain loop breaks only at the fourth poll, by which point all three have
completed and the counter is zero. -/
theorem inflight_counter_nonneg_and_gates_exit_witness :
    consumedWorkCount (drainHistories.get ⟨3, by decide⟩) = 0 := by
  have h := inflight_counter_nonneg_and_gates_exit drainHistories (by decide) 3
    (by decide) (by decide)
  exact h.2

end Platform
